import Mathlib

/-!
Shallow embedding of `keithley2600/Keithley2600.py`: a thin facade over a
message-based instrument transport.  Transport interactions are modelled as an
explicit event trace; the transport itself is a canned response function from
query command strings to response strings.  Python floats are modelled as
rationals; the text processing of `float(...)` is carried out on exact decimal
scaled pairs `m * 10 ^ e` so that it is computable by kernel reduction, and
converted to `ℚ` at the end.  Python exceptions (`ValueError` from `float`,
`IndexError` from list indexing) are modelled with `Except`.
-/

namespace Keithley2600

/-- Claim-relevant Python exceptions: `ValueError` raised by `float(...)` on a
malformed string, `IndexError` raised by out-of-range list indexing. -/
inductive PyErr where
  | valueError
  | indexError
deriving DecidableEq

/-- Drop leading whitespace characters. -/
def dropWS (l : List Char) : List Char := l.dropWhile Char.isWhitespace

/-- Python `str.strip()` on a character list: remove leading and trailing
whitespace. -/
def trimList (l : List Char) : List Char :=
  (dropWS (dropWS l).reverse).reverse

/-- Python `str.strip()`. -/
def pyStrip (s : String) : String := String.mk (trimList s.data)

/-- Numeric value of a digit character. -/
def digitVal (c : Char) : Nat := c.toNat - 48

/-- Split a character list into its leading run of decimal digits and the
rest. -/
def spanDigits : List Char → List Char × List Char
  | [] => ([], [])
  | c :: cs =>
    if c.isDigit then
      let p := spanDigits cs
      (c :: p.1, p.2)
    else ([], c :: cs)

/-- Value of a digit run read in base 10. -/
def digitsVal (l : List Char) : Nat :=
  l.foldl (fun a c => 10 * a + digitVal c) 0

/-- Parse an optional leading sign, returning the sign as `1` or `-1`. -/
def parseSignI : List Char → Int × List Char
  | '+' :: cs => (1, cs)
  | '-' :: cs => (-1, cs)
  | l => (1, l)

/-- Parse the mantissa of a Python float literal: digits, an optional point
and more digits, at least one digit overall.  Returns the mantissa read as an
integer together with the number of fractional digits and the rest of the
input. -/
def parseMantissaScaled (l : List Char) : Option (Nat × Nat × List Char) :=
  let p1 := spanDigits l
  let p2 :=
    match p1.2 with
    | '.' :: cs => spanDigits cs
    | r => ([], r)
  if p1.1.isEmpty && p2.1.isEmpty then none
  else some (digitsVal (p1.1 ++ p2.1), p2.1.length, p2.2)

/-- Parse the optional exponent suffix of a Python float literal; the whole
remaining input must be consumed. -/
def parseExpInt : List Char → Option Int
  | [] => some 0
  | c :: cs =>
    if c = 'e' || c = 'E' then
      let sp :=
        match cs with
        | '+' :: t => ((1 : Int), t)
        | '-' :: t => ((-1 : Int), t)
        | t => ((1 : Int), t)
      let dp := spanDigits sp.2
      if dp.1.isEmpty || !dp.2.isEmpty then none
      else some (sp.1 * (digitsVal dp.1 : Int))
    else none

/-- The decimal scaled value `m * 10 ^ e` accepted by Python `float(s)`:
surrounding whitespace is tolerated, then sign, mantissa and optional
exponent. -/
def scaledParse (s : String) : Option (Int × Int) :=
  let sg := parseSignI (trimList s.data)
  match parseMantissaScaled sg.2 with
  | none => none
  | some m =>
    match parseExpInt m.2.2 with
    | none => none
    | some e => some (sg.1 * (m.1 : Int), e - (m.2.1 : Int))

/-- The rational value of a decimal scaled pair `m * 10 ^ e`. -/
def ratOfScaled (m e : Int) : ℚ :=
  if 0 ≤ e then (m : ℚ) * (10 : ℚ) ^ e.toNat else (m : ℚ) / (10 : ℚ) ^ (-e).toNat

/-- Python `float(s)` as a partial function to rationals. -/
def pyFloatParse (s : String) : Option ℚ :=
  (scaledParse s).map (fun p => ratOfScaled p.1 p.2)

/-- Python `float(s)`, raising `ValueError` on a malformed string. -/
def pyFloat (s : String) : Except PyErr ℚ :=
  match pyFloatParse s with
  | some q => Except.ok q
  | none => Except.error PyErr.valueError

/-- Truncation toward zero, the behaviour of Python `int()` on a float. -/
def truncQ (q : ℚ) : Int := if 0 ≤ q then ⌊q⌋ else ⌈q⌉

/-- Python list indexing `l[i]`, raising `IndexError` out of range. -/
def pyIndex (l : List String) (i : Nat) : Except PyErr String :=
  match l.get? i with
  | some x => Except.ok x
  | none => Except.error PyErr.indexError

/-- Python `str.split(",")` on a character list: the comma-separated pieces,
with `[[]]` for the empty string. -/
def splitOnComma : List Char → List (List Char)
  | [] => [[]]
  | c :: cs =>
    let r := splitOnComma cs
    if c = ',' then [] :: r
    else
      match r with
      | [] => [[c]]
      | h :: t => (c :: h) :: t

/-- Python values that flow into the f-string command templates of the
setters: booleans, integers and floats.  A float is an exact decimal scaled
pair `m * 10 ^ e`, which covers every float literal appearing in the
module. -/
inductive PyVal where
  | vBool (b : Bool)
  | vInt (n : Int)
  | vFloat (m : Int) (e : Int)
deriving DecidableEq

/-- The rational value of a `PyVal` float, for numeric statements. -/
def PyVal.val : PyVal → ℚ
  | PyVal.vBool b => if b then 1 else 0
  | PyVal.vInt n => (n : ℚ)
  | PyVal.vFloat m e => ratOfScaled m e

/-- Python `int(x)` on a bool, int or float. -/
def pyInt : PyVal → Int
  | PyVal.vBool b => if b then 1 else 0
  | PyVal.vInt n => n
  | PyVal.vFloat m e => truncQ (ratOfScaled m e)

/-- Strip factors of ten out of the mantissa of a scaled pair (fuel-bounded
structural loop). -/
def normScaled : Nat → Int × Int → Int × Int
  | 0, p => p
  | fuel + 1, (m, e) =>
    if m % 10 = 0 && m != 0 then normScaled fuel (m / 10, e + 1) else (m, e)

/-- Left-pad a digit string with zeros to width `k`. -/
def padLeftZeros (s : String) (k : Nat) : String :=
  String.mk (List.replicate (k - s.length) '0') ++ s

/-- Python `repr` of a nonnegative float given as a normalized scaled pair:
plain decimal notation with a forced `.0` for integral values, as `repr`
prints the float literals appearing in this module (`0.001`, `0.1`, `5.0`). -/
def reprScaledNN (m : Int) (e : Int) : String :=
  if 0 ≤ e then toString (m * 10 ^ e.toNat) ++ ".0"
  else
    let k := (-e).toNat
    let n := m.natAbs
    toString (n / 10 ^ k) ++ "." ++ padLeftZeros (toString (n % 10 ^ k)) k

/-- Python `repr`/`str` of a float modelled as a decimal scaled pair. -/
def floatRepr (m e : Int) : String :=
  let p := normScaled 64 (m, e)
  if p.1 < 0 then "-" ++ reprScaledNN (-p.1) p.2 else reprScaledNN p.1 p.2

/-- Rendering of a Python value inside an f-string (`str(v)`). -/
def pyRender : PyVal → String
  | PyVal.vBool b => if b then "True" else "False"
  | PyVal.vInt n => toString n
  | PyVal.vFloat m e => floatRepr m e

/-- One observable transport interaction of the facade: a `write`, a `query`
with its response line, a `time.sleep`, or closing the handle. -/
inductive Event where
  | write (cmd : String)
  | query (cmd : String) (resp : String)
  | sleep (d : ℚ)
  | close
deriving DecidableEq

/-- A canned transport: the response line the instrument returns to each
query command. -/
abbrev Resp := String → String

/-- Python `reset_device`: writes `smua.reset()`. -/
def reset_device : List Event := [Event.write "smua.reset()"]

/-- Python `measure_resistance`: one query, response parsed with
`float(response.strip())`. -/
def measure_resistance (t : Resp) : Except PyErr ℚ × List Event :=
  let r := t "print(smua.measure.r())"
  (pyFloat (pyStrip r), [Event.query "print(smua.measure.r())" r])

/-- Python `measure_power`: one query, response parsed with
`float(response.strip())`. -/
def measure_power (t : Resp) : Except PyErr ℚ × List Event :=
  let r := t "print(smua.measure.p())"
  (pyFloat (pyStrip r), [Event.query "print(smua.measure.p())" r])

/-- The pure parsing tail of `measure_iv`: `response.split(",")`, then
`float(response[0])` and `float(response[1])`. -/
def parsePairResp (rresp : String) : Except PyErr (ℚ × ℚ) :=
  let toks := (splitOnComma rresp.data).map String.mk
  match pyIndex toks 0 with
  | Except.error err => Except.error err
  | Except.ok s0 =>
    match pyFloat s0 with
    | Except.error err => Except.error err
    | Except.ok i =>
      match pyIndex toks 1 with
      | Except.error err => Except.error err
      | Except.ok s1 =>
        match pyFloat s1 with
        | Except.error err => Except.error err
        | Except.ok v => Except.ok (i, v)

/-- Python `measure_iv`: a write triggering the dual reading, then
`time.sleep(self.delay)` — where `self.delay` is the `delay` property getter,
itself one query parsed with `float(.strip())` — then one query whose
comma-separated response is parsed into two floats.  A raised exception stops
the remaining steps. -/
def measure_iv (t : Resp) : Except PyErr (ℚ × ℚ) × List Event :=
  let e1 := Event.write "ireading, vreading = smua.measure.iv()"
  let dresp := t "print(smua.measure.delay)"
  let e2 := Event.query "print(smua.measure.delay)" dresp
  match pyFloat (pyStrip dresp) with
  | Except.error err => (Except.error err, [e1, e2])
  | Except.ok d =>
    let rresp := t "printnumber(ireading,vreading)"
    (parsePairResp rresp,
      [e1, e2, Event.sleep d, Event.query "printnumber(ireading,vreading)" rresp])

/-- Python `output` getter: one query, `bool(int(float(state.strip())))`. -/
def output_get (t : Resp) : Except PyErr Bool × List Event :=
  let r := t "print(smua.source.output)"
  (Except.map (fun q => truncQ q != 0) (pyFloat (pyStrip r)),
    [Event.query "print(smua.source.output)" r])

/-- Python `output` setter: writes `smua.source.output = {int(flag)}`. -/
def output_set (flag : Bool) : List Event :=
  [Event.write ("smua.source.output = " ++ toString (pyInt (PyVal.vBool flag)))]

/-- Python `source_function` getter: one query; the response is returned verbatim,
with no parsing and no strip. -/
def source_function_get (t : Resp) : String × List Event :=
  let r := t "print(smua.source.func)"
  (r, [Event.query "print(smua.source.func)" r])

/-- Python `source_function` setter: writes `smua.source.func = {func}`. -/
def source_function_set (v : PyVal) : List Event :=
  [Event.write ("smua.source.func = " ++ pyRender v)]

/-- Python `nplc` getter: one query, `float(response.strip())`. -/
def nplc_get (t : Resp) : Except PyErr ℚ × List Event :=
  let r := t "print(smua.measure.nplc)"
  (pyFloat (pyStrip r), [Event.query "print(smua.measure.nplc)" r])

/-- Python `nplc` setter: writes `smua.measure.nplc = {NPLC}`. -/
def nplc_set (v : PyVal) : List Event :=
  [Event.write ("smua.measure.nplc = " ++ pyRender v)]

/-- Python `delay` getter: one query, `float(response.strip())`. -/
def delay_get (t : Resp) : Except PyErr ℚ × List Event :=
  let r := t "print(smua.measure.delay)"
  (pyFloat (pyStrip r), [Event.query "print(smua.measure.delay)" r])

/-- Python `delay` setter: writes `smua.measure.delay = {delay}`. -/
def delay_set (v : PyVal) : List Event :=
  [Event.write ("smua.measure.delay = " ++ pyRender v)]

/-- Python `range_i` getter: one query, `float(response.strip())`. -/
def range_i_get (t : Resp) : Except PyErr ℚ × List Event :=
  let r := t "print(smua.measure.rangei)"
  (pyFloat (pyStrip r), [Event.query "print(smua.measure.rangei)" r])

/-- Python `range_i` setter: writes `smua.measure.rangei = {i_range}`. -/
def range_i_set (v : PyVal) : List Event :=
  [Event.write ("smua.measure.rangei = " ++ pyRender v)]

/-- Python `range_v` getter: one query, `float(response.strip())`. -/
def range_v_get (t : Resp) : Except PyErr ℚ × List Event :=
  let r := t "print(smua.measure.rangev)"
  (pyFloat (pyStrip r), [Event.query "print(smua.measure.rangev)" r])

/-- Python `range_v` setter: writes `smua.measure.rangev = {v_range}`. -/
def range_v_set (v : PyVal) : List Event :=
  [Event.write ("smua.measure.rangev = " ++ pyRender v)]

/-- Python `autorange_i` getter: one query, `bool(int(float(response.strip())))`. -/
def autorange_i_get (t : Resp) : Except PyErr Bool × List Event :=
  let r := t "print(smua.measure.autorangei)"
  (Except.map (fun q => truncQ q != 0) (pyFloat (pyStrip r)),
    [Event.query "print(smua.measure.autorangei)" r])

/-- Python `autorange_i` setter: writes `smua.measure.autorangei = {autorange}`. -/
def autorange_i_set (v : PyVal) : List Event :=
  [Event.write ("smua.measure.autorangei = " ++ pyRender v)]

/-- Python `autorange_v` getter: one query, `bool(int(float(response.strip())))`. -/
def autorange_v_get (t : Resp) : Except PyErr Bool × List Event :=
  let r := t "print(smua.measure.autorangev)"
  (Except.map (fun q => truncQ q != 0) (pyFloat (pyStrip r)),
    [Event.query "print(smua.measure.autorangev)" r])

/-- Python `autorange_v` setter: writes `smua.measure.autorangev = {autorange}`. -/
def autorange_v_set (v : PyVal) : List Event :=
  [Event.write ("smua.measure.autorangev = " ++ pyRender v)]

/-- Python `level_v` getter: one query, `float(response.strip())`. -/
def level_v_get (t : Resp) : Except PyErr ℚ × List Event :=
  let r := t "print(smua.source.levelv)"
  (pyFloat (pyStrip r), [Event.query "print(smua.source.levelv)" r])

/-- Python `level_v` setter: writes `smua.source.levelv = {v_level}`. -/
def level_v_set (v : PyVal) : List Event :=
  [Event.write ("smua.source.levelv = " ++ pyRender v)]

/-- Python `level_i` getter: one query, `float(response.strip())`. -/
def level_i_get (t : Resp) : Except PyErr ℚ × List Event :=
  let r := t "print(smua.source.leveli)"
  (pyFloat (pyStrip r), [Event.query "print(smua.source.leveli)" r])

/-- Python `level_i` setter: writes `smua.source.leveli = {i_level}`. -/
def level_i_set (v : PyVal) : List Event :=
  [Event.write ("smua.source.leveli = " ++ pyRender v)]

/-- Python `limit_i` getter: one query, `float(response.strip())`. -/
def limit_i_get (t : Resp) : Except PyErr ℚ × List Event :=
  let r := t "print(smua.source.limiti)"
  (pyFloat (pyStrip r), [Event.query "print(smua.source.limiti)" r])

/-- Python `limit_i` setter: writes `smua.source.limiti = {i_limit}`. -/
def limit_i_set (v : PyVal) : List Event :=
  [Event.write ("smua.source.limiti = " ++ pyRender v)]

/-- Python `limit_v` getter: one query, `float(response.strip())`. -/
def limit_v_get (t : Resp) : Except PyErr ℚ × List Event :=
  let r := t "print(smua.source.limitv)"
  (pyFloat (pyStrip r), [Event.query "print(smua.source.limitv)" r])

/-- Python `limit_v` setter: writes `smua.source.limitv = {v_limit}`. -/
def limit_v_set (v : PyVal) : List Event :=
  [Event.write ("smua.source.limitv = " ++ pyRender v)]

/-- Python `default_setup`: the fixed assignment sequence
`source_function = 1; level_v = 0; autorange_i = 1; autorange_v = 1;
output = False`, each hitting the corresponding property setter. -/
def default_setup : List Event :=
  source_function_set (PyVal.vInt 1) ++ level_v_set (PyVal.vInt 0) ++
    autorange_i_set (PyVal.vInt 1) ++ autorange_v_set (PyVal.vInt 1) ++
    output_set false

/-- Python `__init__`: `reset_device()`, `default_setup()`, then `self.delay = d`
(the `delay` property setter, so the value goes to the instrument; no local
attribute other than the transport handle is created). -/
def init (d : PyVal) : List Event :=
  reset_device ++ default_setup ++ delay_set d

/-- Python `setup_for_resistance_measurement`: a raw buffered-measurement write,
then `reset_device()` and the property-setter sequence of the source. -/
def setup_for_resistance_measurement : List Event :=
  [Event.write "smua.measure.r(smua.nvbuffer1)"] ++ reset_device ++
    source_function_set (PyVal.vInt 0) ++ level_i_set (PyVal.vFloat 1 (-3)) ++
    autorange_v_set (PyVal.vInt 1) ++ nplc_set (PyVal.vInt 5) ++
    delay_set (PyVal.vFloat 1 (-1)) ++ range_v_set (PyVal.vInt 20) ++
    range_i_set (PyVal.vFloat 1 (-3))

/-- Python `setup_for_IV_measurement`: `reset_device()` followed by the
property-setter sequence of the source, with the given current limit and
NPLC. -/
def setup_for_IV_measurement (iLimit NPLC : PyVal) : List Event :=
  reset_device ++ source_function_set (PyVal.vInt 1) ++
    level_v_set (PyVal.vInt 0) ++ autorange_i_set (PyVal.vInt 1) ++
    autorange_v_set (PyVal.vInt 1) ++ limit_i_set iLimit ++ nplc_set NPLC

/-- Python `__del__`: `self.output = False`, `self.reset_device()`,
`self.smu.close()`, with no exception handling.  `failWrite` says which
transport writes raise; a raising write is recorded as issued but stops the
remaining statements of the destructor, as an uncaught exception does in
Python. -/
def destructor (failWrite : String → Bool) : List Event :=
  if failWrite "smua.source.output = 0" then
    [Event.write "smua.source.output = 0"]
  else if failWrite "smua.reset()" then
    [Event.write "smua.source.output = 0", Event.write "smua.reset()"]
  else
    [Event.write "smua.source.output = 0", Event.write "smua.reset()", Event.close]

/-- The instrument property paths written by the primitive setters. -/
def setterPaths : List String :=
  ["smua.source.output", "smua.source.func", "smua.measure.nplc",
   "smua.measure.delay", "smua.measure.rangei", "smua.measure.rangev",
   "smua.measure.autorangei", "smua.measure.autorangev",
   "smua.source.levelv", "smua.source.leveli",
   "smua.source.limiti", "smua.source.limitv"]

/-- A command a primitive property setter (or `reset_device`) can emit: the
reset command, or a setter path followed by an assignment of some rendered
value. -/
def IsPrimitiveCmd (c : String) : Prop :=
  c = "smua.reset()" ∨ ∃ p r, p ∈ setterPaths ∧ c = p ++ (" = " ++ r)

/-! Helper lemmas shared by the claim theorems. -/

/-- String concatenation concatenates the underlying character lists. -/
theorem data_append (a b : String) : (a ++ b).data = a.data ++ b.data := rfl

/-- Evaluation of `ratOfScaled` at a negated natural exponent. -/
theorem ratOfScaled_negNat (m : Int) (k : Nat) :
    ratOfScaled m (-(k : Int)) = (m : ℚ) / 10 ^ k := by
  unfold ratOfScaled
  rcases Nat.eq_zero_or_pos k with hk | hk
  · subst hk; norm_num
  · have h1 : ¬ ((0 : Int) ≤ -(k : Int)) := by omega
    rw [if_neg h1, neg_neg, Int.toNat_natCast]

/-- Evaluation of `ratOfScaled` at a natural exponent. -/
theorem ratOfScaled_ofNat (m : Int) (k : Nat) :
    ratOfScaled m ((k : Nat) : Int) = (m : ℚ) * 10 ^ k := by
  unfold ratOfScaled
  rw [if_pos (by omega : (0 : Int) ≤ (k : Int)), Int.toNat_natCast]

/-- Python `float` returns the value of the decimal scaled pair its grammar
accepts. -/
theorem pyFloat_of_scaled (s : String) (m e : Int)
    (h : scaledParse s = some (m, e)) :
    pyFloat s = Except.ok (ratOfScaled m e) := by
  simp [pyFloat, pyFloatParse, h]

/-- Python `float` raises `ValueError` exactly when the grammar rejects. -/
theorem pyFloat_of_scaled_none (s : String) (h : scaledParse s = none) :
    pyFloat s = Except.error PyErr.valueError := by
  simp [pyFloat, pyFloatParse, h]

/-- The raw buffered-measurement command of
`setup_for_resistance_measurement` is not a primitive setter command: every
setter command contains a space, while this command contains none, and it is
not the reset command. -/
theorem not_primitive_trigger :
    ¬ IsPrimitiveCmd "smua.measure.r(smua.nvbuffer1)" := by
  intro h
  rcases h with h | ⟨p, r, hp, he⟩
  · exact absurd h (by decide)
  · have hsp : ' ' ∈ "smua.measure.r(smua.nvbuffer1)".data := by
      rw [he]
      simp [data_append]
    exact absurd hsp (by decide)

/-! Claim theorems. -/

/-- Claim C1, counterexample: the destructor has no exception handling, so
when the output-off write raises, neither the reset command nor the close of
the transport handle happens — the teardown sequence is not unconditional. -/
theorem C1_counterexample :
    Event.write "smua.reset()" ∉
        destructor (fun c => c == "smua.source.output = 0") ∧
    Event.close ∉ destructor (fun c => c == "smua.source.output = 0") := by
  decide

/-- Claim C1, amended: when no transport command raises, destroying the
session issues the output-off command, then the reset command, then closes
the handle, in that order; but when the output-off write raises, the
destructor stops there and neither resets nor closes. -/
theorem C1_teardown :
    destructor (fun _ => false) =
      [Event.write "smua.source.output = 0", Event.write "smua.reset()",
        Event.close] ∧
    ∀ f : String → Bool, f "smua.source.output = 0" = true →
      destructor f = [Event.write "smua.source.output = 0"] := by
  refine ⟨rfl, ?_⟩
  intro f hf
  simp [destructor, hf]

/-- Witness for claim C1 at the transport whose output-off write raises. -/
theorem C1_teardown_witness :
    destructor (fun c => c == "smua.source.output = 0") =
      [Event.write "smua.source.output = 0"] :=
  C1_teardown.2 (fun c => c == "smua.source.output = 0") (by decide)

/-- Claim C2: construction issues, over the transport, first the device
reset and then the default-configuration writes — source function voltage
(`smua.source.func = 1`), source level 0 V, current autorange on, voltage
autorange on, output off — in that order, followed only by the write of the
construction-time delay value. -/
theorem C2_construction_writes (d : PyVal) :
    init d =
      [Event.write "smua.reset()",
       Event.write "smua.source.func = 1",
       Event.write "smua.source.levelv = 0",
       Event.write "smua.measure.autorangei = 1",
       Event.write "smua.measure.autorangev = 1",
       Event.write "smua.source.output = 0"] ++ delay_set d := rfl

/-- Claim C3: for a transport whose paired-reading query returns
`"1.0e-3,2.5"` (and whose settle-delay query returns a parseable number, as
any functioning instrument does), `measure_iv` returns the pair
`(0.001, 2.5)`: the comma-separated response is split and the first two
tokens are parsed as floats, current first, voltage second. -/
theorem C3_measure_iv_pair (t : Resp) (d : ℚ)
    (hr : t "printnumber(ireading,vreading)" = "1.0e-3,2.5")
    (hd : pyFloat (pyStrip (t "print(smua.measure.delay)")) = Except.ok d) :
    (measure_iv t).1 = Except.ok (1/1000, 5/2) := by
  have h0 : pyFloat "1.0e-3" = Except.ok ((1 : ℚ)/1000) := by
    rw [pyFloat_of_scaled _ 10 (-((4 : Nat) : Int)) (by decide), ratOfScaled_negNat]
    norm_num
  have h1 : pyFloat "2.5" = Except.ok ((5 : ℚ)/2) := by
    rw [pyFloat_of_scaled _ 25 (-((1 : Nat) : Int)) (by decide), ratOfScaled_negNat]
    norm_num
  have hp : parsePairResp "1.0e-3,2.5" = Except.ok (1/1000, 5/2) := by
    simp only [parsePairResp,
      show (splitOnComma ("1.0e-3,2.5").data).map String.mk = ["1.0e-3", "2.5"]
        from by decide]
    simp [pyIndex, h0, h1]
  simp only [measure_iv, hd, hr]
  exact hp

/-- Witness for claim C3 at a concrete canned transport. -/
theorem C3_measure_iv_pair_witness :
    (measure_iv (fun c =>
      if c = "printnumber(ireading,vreading)" then "1.0e-3,2.5" else "0.1")).1 =
      Except.ok (1/1000, 5/2) :=
  C3_measure_iv_pair _ (ratOfScaled 1 (-((1 : Nat) : Int))) rfl
    (pyFloat_of_scaled _ _ _ (by decide))

/-- Claim C4, counterexample: the `source_function` getter does not parse its
response as a float — it returns the response string verbatim (even an
unparseable one), so the claim that every getter, including
`source_function`, parses the returned token to a float is false. -/
theorem C4_counterexample :
    (source_function_get (fun _ => "5.000000E+00\n")).1 = "5.000000E+00\n" ∧
    (source_function_get (fun _ => "abc")).1 = "abc" ∧
    pyFloatParse "abc" = none :=
  ⟨rfl, rfl, by decide⟩

/-- Claim C4, amended: every scalar getter issues exactly one query; each
float-valued getter parses the canned response `"5.000000E+00\n"` to `5`;
each flag-like getter converts it through truthy-nonzero-integer conversion
(here to `true`); the `source_function` getter alone returns the raw
response string unparsed. -/
theorem C4_getter_parse :
    (nplc_get (fun _ => "5.000000E+00\n")).1 = Except.ok 5 ∧
    (delay_get (fun _ => "5.000000E+00\n")).1 = Except.ok 5 ∧
    (range_i_get (fun _ => "5.000000E+00\n")).1 = Except.ok 5 ∧
    (range_v_get (fun _ => "5.000000E+00\n")).1 = Except.ok 5 ∧
    (level_v_get (fun _ => "5.000000E+00\n")).1 = Except.ok 5 ∧
    (level_i_get (fun _ => "5.000000E+00\n")).1 = Except.ok 5 ∧
    (limit_i_get (fun _ => "5.000000E+00\n")).1 = Except.ok 5 ∧
    (limit_v_get (fun _ => "5.000000E+00\n")).1 = Except.ok 5 ∧
    (output_get (fun _ => "5.000000E+00\n")).1 = Except.ok true ∧
    (autorange_i_get (fun _ => "5.000000E+00\n")).1 = Except.ok true ∧
    (autorange_v_get (fun _ => "5.000000E+00\n")).1 = Except.ok true ∧
    (source_function_get (fun _ => "5.000000E+00\n")).1 = "5.000000E+00\n" ∧
    (∀ t, (nplc_get t).2.length = 1) ∧
    (∀ t, (delay_get t).2.length = 1) ∧
    (∀ t, (range_i_get t).2.length = 1) ∧
    (∀ t, (range_v_get t).2.length = 1) ∧
    (∀ t, (level_v_get t).2.length = 1) ∧
    (∀ t, (level_i_get t).2.length = 1) ∧
    (∀ t, (limit_i_get t).2.length = 1) ∧
    (∀ t, (limit_v_get t).2.length = 1) ∧
    (∀ t, (output_get t).2.length = 1) ∧
    (∀ t, (autorange_i_get t).2.length = 1) ∧
    (∀ t, (autorange_v_get t).2.length = 1) ∧
    (∀ t, (source_function_get t).2.length = 1) := by
  have h1 : pyFloat (pyStrip "5.000000E+00\n") = Except.ok 5 := by
    rw [pyFloat_of_scaled _ 5000000 (-((6 : Nat) : Int)) (by decide),
      ratOfScaled_negNat]
    norm_num
  have h2 : Except.map (fun q : ℚ => truncQ q != 0)
      (pyFloat (pyStrip "5.000000E+00\n")) = Except.ok true := by
    rw [h1]
    norm_num [Except.map, truncQ]
  exact ⟨by simp only [nplc_get]; exact h1,
    by simp only [delay_get]; exact h1,
    by simp only [range_i_get]; exact h1,
    by simp only [range_v_get]; exact h1,
    by simp only [level_v_get]; exact h1,
    by simp only [level_i_get]; exact h1,
    by simp only [limit_i_get]; exact h1,
    by simp only [limit_v_get]; exact h1,
    by simp only [output_get]; exact h2,
    by simp only [autorange_i_get]; exact h2,
    by simp only [autorange_v_get]; exact h2,
    rfl,
    fun t => rfl, fun t => rfl, fun t => rfl, fun t => rfl,
    fun t => rfl, fun t => rfl, fun t => rfl, fun t => rfl,
    fun t => rfl, fun t => rfl, fun t => rfl, fun t => rfl⟩

/-- Claim C5, counterexample: `setup_for_resistance_measurement` issues a
transport command, `smua.measure.r(smua.nvbuffer1)`, that is not a command of
any primitive property setter nor the reset command, so the composite setup
routines are not pure compositions of the primitive setters. -/
theorem C5_counterexample :
    Event.write "smua.measure.r(smua.nvbuffer1)" ∈ setup_for_resistance_measurement ∧
    ¬ IsPrimitiveCmd "smua.measure.r(smua.nvbuffer1)" :=
  ⟨by decide, not_primitive_trigger⟩

/-- Claim C5, amended: `setup_for_IV_measurement` emits exactly the ordered
command sequence of `reset_device` followed by the primitive setters, every
one of its commands being a primitive-setter or reset command; while
`setup_for_resistance_measurement` first issues one raw
buffered-measurement write and after it only `reset_device` and
primitive-setter commands, in the source order. -/
theorem C5_setup_composition :
    (∀ a b : PyVal, setup_for_IV_measurement a b =
      reset_device ++ source_function_set (PyVal.vInt 1) ++
        level_v_set (PyVal.vInt 0) ++ autorange_i_set (PyVal.vInt 1) ++
        autorange_v_set (PyVal.vInt 1) ++ limit_i_set a ++ nplc_set b) ∧
    (∀ a b : PyVal, ∀ e ∈ setup_for_IV_measurement a b,
      ∃ c, e = Event.write c ∧ IsPrimitiveCmd c) ∧
    (setup_for_resistance_measurement =
      Event.write "smua.measure.r(smua.nvbuffer1)" ::
        (reset_device ++ source_function_set (PyVal.vInt 0) ++
          level_i_set (PyVal.vFloat 1 (-3)) ++ autorange_v_set (PyVal.vInt 1) ++
          nplc_set (PyVal.vInt 5) ++ delay_set (PyVal.vFloat 1 (-1)) ++
          range_v_set (PyVal.vInt 20) ++ range_i_set (PyVal.vFloat 1 (-3)))) ∧
    (∀ e ∈ setup_for_resistance_measurement.tail,
      ∃ c, e = Event.write c ∧ IsPrimitiveCmd c) := by
  refine ⟨fun a b => rfl, ?_, rfl, ?_⟩
  · intro a b e he
    simp only [setup_for_IV_measurement, reset_device, source_function_set,
      level_v_set, autorange_i_set, autorange_v_set, limit_i_set, nplc_set,
      List.cons_append, List.nil_append, List.mem_cons,
      List.not_mem_nil, or_false] at he
    rcases he with h | h | h | h | h | h | h
    · exact ⟨_, h, Or.inl rfl⟩
    · exact ⟨_, h, Or.inr ⟨"smua.source.func", pyRender (PyVal.vInt 1), by decide, rfl⟩⟩
    · exact ⟨_, h, Or.inr ⟨"smua.source.levelv", pyRender (PyVal.vInt 0), by decide, rfl⟩⟩
    · exact ⟨_, h, Or.inr ⟨"smua.measure.autorangei", pyRender (PyVal.vInt 1), by decide, rfl⟩⟩
    · exact ⟨_, h, Or.inr ⟨"smua.measure.autorangev", pyRender (PyVal.vInt 1), by decide, rfl⟩⟩
    · exact ⟨_, h, Or.inr ⟨"smua.source.limiti", pyRender a, by decide, rfl⟩⟩
    · exact ⟨_, h, Or.inr ⟨"smua.measure.nplc", pyRender b, by decide, rfl⟩⟩
  · intro e he
    simp only [setup_for_resistance_measurement, reset_device,
      source_function_set, level_i_set, autorange_v_set, nplc_set, delay_set,
      range_v_set, range_i_set, List.cons_append, List.nil_append, List.tail,
      List.mem_cons, List.not_mem_nil, or_false] at he
    rcases he with h | h | h | h | h | h | h | h
    · exact ⟨_, h, Or.inl rfl⟩
    · exact ⟨_, h, Or.inr ⟨"smua.source.func", pyRender (PyVal.vInt 0), by decide, rfl⟩⟩
    · exact ⟨_, h, Or.inr ⟨"smua.source.leveli", pyRender (PyVal.vFloat 1 (-3)), by decide, by decide⟩⟩
    · exact ⟨_, h, Or.inr ⟨"smua.measure.autorangev", pyRender (PyVal.vInt 1), by decide, rfl⟩⟩
    · exact ⟨_, h, Or.inr ⟨"smua.measure.nplc", pyRender (PyVal.vInt 5), by decide, rfl⟩⟩
    · exact ⟨_, h, Or.inr ⟨"smua.measure.delay", pyRender (PyVal.vFloat 1 (-1)), by decide, by decide⟩⟩
    · exact ⟨_, h, Or.inr ⟨"smua.measure.rangev", pyRender (PyVal.vInt 20), by decide, rfl⟩⟩
    · exact ⟨_, h, Or.inr ⟨"smua.measure.rangei", pyRender (PyVal.vFloat 1 (-3)), by decide, by decide⟩⟩

/-- Witness for claim C5 at a concrete element of the IV-setup trace. -/
theorem C5_setup_composition_witness :
    ∃ c, Event.write "smua.reset()" = Event.write c ∧ IsPrimitiveCmd c :=
  C5_setup_composition.2.1 (PyVal.vInt 1) (PyVal.vInt 5)
    (Event.write "smua.reset()") (by decide)

/-- Claim C6: every property setter formats its command as the exact
instrument property path followed by the rendered argument; in particular the
`output` setter renders `False` as `0` and `True` as `1`, and float and
integer arguments render in the instrument's decimal notation. -/
theorem C6_setter_format :
    output_set false = [Event.write "smua.source.output = 0"] ∧
    output_set true = [Event.write "smua.source.output = 1"] ∧
    (∀ v, source_function_set v =
      [Event.write ("smua.source.func = " ++ pyRender v)]) ∧
    (∀ v, nplc_set v = [Event.write ("smua.measure.nplc = " ++ pyRender v)]) ∧
    (∀ v, delay_set v = [Event.write ("smua.measure.delay = " ++ pyRender v)]) ∧
    (∀ v, range_i_set v = [Event.write ("smua.measure.rangei = " ++ pyRender v)]) ∧
    (∀ v, range_v_set v = [Event.write ("smua.measure.rangev = " ++ pyRender v)]) ∧
    (∀ v, autorange_i_set v = [Event.write ("smua.measure.autorangei = " ++ pyRender v)]) ∧
    (∀ v, autorange_v_set v = [Event.write ("smua.measure.autorangev = " ++ pyRender v)]) ∧
    (∀ v, level_v_set v = [Event.write ("smua.source.levelv = " ++ pyRender v)]) ∧
    (∀ v, level_i_set v = [Event.write ("smua.source.leveli = " ++ pyRender v)]) ∧
    (∀ v, limit_i_set v = [Event.write ("smua.source.limiti = " ++ pyRender v)]) ∧
    (∀ v, limit_v_set v = [Event.write ("smua.source.limitv = " ++ pyRender v)]) ∧
    limit_i_set (PyVal.vFloat 1 (-3)) = [Event.write "smua.source.limiti = 0.001"] ∧
    delay_set (PyVal.vFloat 1 (-1)) = [Event.write "smua.measure.delay = 0.1"] ∧
    nplc_set (PyVal.vInt 5) = [Event.write "smua.measure.nplc = 5"] := by
  refine ⟨rfl, rfl, fun v => rfl, fun v => rfl, fun v => rfl, fun v => rfl,
    fun v => rfl, fun v => rfl, fun v => rfl, fun v => rfl, fun v => rfl,
    fun v => rfl, fun v => rfl, by decide, by decide, by decide⟩

/-- Claim C7, counterexample: `measure_iv` issues two queries, not one — the
settle delay used for the wait is itself fetched from the instrument by a
query before the reading query. -/
theorem C7_counterexample :
    ((measure_iv (fun c =>
        if c = "printnumber(ireading,vreading)" then "1.0e-3,2.5" else "0.1")).2.countP
      (fun e => match e with | Event.query _ _ => true | _ => false)) = 2 := by
  decide

/-- Claim C7, amended: `measure_iv` performs, in order, one write triggering
the dual reading, one query fetching the configured settle delay from the
instrument, a wait of that parsed delay, and exactly one further query for
the comma-separated reading pair; no other transport transaction occurs. -/
theorem C7_measure_iv_trace (t : Resp) (d : ℚ)
    (hd : pyFloat (pyStrip (t "print(smua.measure.delay)")) = Except.ok d) :
    (measure_iv t).2 =
      [Event.write "ireading, vreading = smua.measure.iv()",
       Event.query "print(smua.measure.delay)" (t "print(smua.measure.delay)"),
       Event.sleep d,
       Event.query "printnumber(ireading,vreading)"
         (t "printnumber(ireading,vreading)")] := by
  simp only [measure_iv, hd]

/-- Witness for claim C7 at a concrete canned transport. -/
theorem C7_measure_iv_trace_witness :
    (measure_iv (fun _ => "0.1")).2 =
      [Event.write "ireading, vreading = smua.measure.iv()",
       Event.query "print(smua.measure.delay)" "0.1",
       Event.sleep (ratOfScaled 1 (-((1 : Nat) : Int))),
       Event.query "printnumber(ireading,vreading)" "0.1"] :=
  C7_measure_iv_trace _ _ (pyFloat_of_scaled _ _ _ (by decide))

/-- Claim C8, counterexample: a `measure_iv` response without two
comma-separated tokens but with a parseable first token — here `"1.0"` —
fails at list-indexing time with an `IndexError`, not with a
float-conversion error, so parse failure is not the only failure mode. -/
theorem C8_counterexample :
    (measure_iv (fun c =>
      if c = "printnumber(ireading,vreading)" then "1.0" else "0.1")).1 =
      Except.error PyErr.indexError ∧
    PyErr.indexError ≠ PyErr.valueError := by
  exact ⟨rfl, by decide⟩

/-- Claim C8, amended: the single-reading measurements can only fail with a
float-conversion error (`ValueError`); `measure_iv` fails with a
float-conversion error on an empty response, but with an `IndexError` when
the response has no comma and a parseable first token. -/
theorem C8_parse_failures :
    (∀ t e, (measure_resistance t).1 = Except.error e → e = PyErr.valueError) ∧
    (∀ t e, (measure_power t).1 = Except.error e → e = PyErr.valueError) ∧
    (∀ t d, t "printnumber(ireading,vreading)" = "" →
      pyFloat (pyStrip (t "print(smua.measure.delay)")) = Except.ok d →
      (measure_iv t).1 = Except.error PyErr.valueError) ∧
    (∀ t d, t "printnumber(ireading,vreading)" = "1.0" →
      pyFloat (pyStrip (t "print(smua.measure.delay)")) = Except.ok d →
      (measure_iv t).1 = Except.error PyErr.indexError) := by
  refine ⟨?_, ?_, ?_, ?_⟩
  · intro t e h
    simp only [measure_resistance, pyFloat] at h
    rcases hp : pyFloatParse (pyStrip (t "print(smua.measure.r())")) with _ | q <;>
      rw [hp] at h <;> simp_all
  · intro t e h
    simp only [measure_power, pyFloat] at h
    rcases hp : pyFloatParse (pyStrip (t "print(smua.measure.p())")) with _ | q <;>
      rw [hp] at h <;> simp_all
  · intro t d hr hd
    simp only [measure_iv, hd, hr]
    rfl
  · intro t d hr hd
    simp only [measure_iv, hd, hr]
    rfl

/-- Witness for claim C8 at concrete failing transports. -/
theorem C8_parse_failures_witness :
    PyErr.valueError = PyErr.valueError ∧
    (measure_iv (fun c =>
      if c = "printnumber(ireading,vreading)" then "" else "0.1")).1 =
      Except.error PyErr.valueError :=
  ⟨C8_parse_failures.1 (fun _ => "abc") PyErr.valueError rfl,
   C8_parse_failures.2.2.1 _ (ratOfScaled 1 (-((1 : Nat) : Int))) rfl
     (pyFloat_of_scaled _ _ _ (by decide))⟩

/-- Claim C9: every accessor round-trips to the instrument — each getter
issues exactly one transport transaction per invocation, each setter exactly
one write — and the settle wait of `measure_iv` is the value parsed from the
instrument's own response to the delay query, not a locally cached value. -/
theorem C9_no_local_cache :
    (∀ t d, pyFloat (pyStrip (t "print(smua.measure.delay)")) = Except.ok d →
      Event.sleep d ∈ (measure_iv t).2) ∧
    (∀ t, (output_get t).2.length = 1) ∧
    (∀ t, (source_function_get t).2.length = 1) ∧
    (∀ t, (nplc_get t).2.length = 1) ∧
    (∀ t, (delay_get t).2.length = 1) ∧
    (∀ t, (range_i_get t).2.length = 1) ∧
    (∀ t, (range_v_get t).2.length = 1) ∧
    (∀ t, (autorange_i_get t).2.length = 1) ∧
    (∀ t, (autorange_v_get t).2.length = 1) ∧
    (∀ t, (level_v_get t).2.length = 1) ∧
    (∀ t, (level_i_get t).2.length = 1) ∧
    (∀ t, (limit_i_get t).2.length = 1) ∧
    (∀ t, (limit_v_get t).2.length = 1) ∧
    (∀ b, (output_set b).length = 1) ∧
    (∀ v, (source_function_set v).length = 1) ∧
    (∀ v, (nplc_set v).length = 1) ∧
    (∀ v, (delay_set v).length = 1) ∧
    (∀ v, (range_i_set v).length = 1) ∧
    (∀ v, (range_v_set v).length = 1) ∧
    (∀ v, (autorange_i_set v).length = 1) ∧
    (∀ v, (autorange_v_set v).length = 1) ∧
    (∀ v, (level_v_set v).length = 1) ∧
    (∀ v, (level_i_set v).length = 1) ∧
    (∀ v, (limit_i_set v).length = 1) ∧
    (∀ v, (limit_v_set v).length = 1) := by
  refine ⟨?_, fun t => rfl, fun t => rfl, fun t => rfl, fun t => rfl,
    fun t => rfl, fun t => rfl, fun t => rfl, fun t => rfl, fun t => rfl,
    fun t => rfl, fun t => rfl, fun t => rfl, fun b => rfl, fun v => rfl,
    fun v => rfl, fun v => rfl, fun v => rfl, fun v => rfl, fun v => rfl,
    fun v => rfl, fun v => rfl, fun v => rfl, fun v => rfl, fun v => rfl⟩
  intro t d hd
  simp [measure_iv, hd]

/-- Witness for claim C9: the slept delay is the instrument's response. -/
theorem C9_no_local_cache_witness :
    Event.sleep (ratOfScaled 1 (-((1 : Nat) : Int))) ∈
      (measure_iv (fun _ => "0.1")).2 :=
  C9_no_local_cache.1 _ _ (pyFloat_of_scaled _ _ _ (by decide))

/-- Claim C10: the flag-like getters convert the response by `float`, then
truncation toward zero, then a nonzero test: any parsed value is mapped to
the boolean `truncQ q != 0`, so `"0.5"` and `"-0.5"` and `"0.000000E+00"`
yield `false` while `"2"` (the limit-range autorange state) yields `true`. -/
theorem C10_flag_conversion :
    (∀ t q, pyFloat (pyStrip (t "print(smua.source.output)")) = Except.ok q →
      (output_get t).1 = Except.ok (truncQ q != 0)) ∧
    (∀ t q, pyFloat (pyStrip (t "print(smua.measure.autorangei)")) = Except.ok q →
      (autorange_i_get t).1 = Except.ok (truncQ q != 0)) ∧
    (∀ t q, pyFloat (pyStrip (t "print(smua.measure.autorangev)")) = Except.ok q →
      (autorange_v_get t).1 = Except.ok (truncQ q != 0)) ∧
    (output_get (fun _ => "0.5")).1 = Except.ok false ∧
    (output_get (fun _ => "-0.5")).1 = Except.ok false ∧
    (autorange_i_get (fun _ => "0.000000E+00")).1 = Except.ok false ∧
    (autorange_v_get (fun _ => "2")).1 = Except.ok true := by
  have hg : ∀ (s : String) (q : ℚ), pyFloat (pyStrip s) = Except.ok q →
      Except.map (fun x : ℚ => truncQ x != 0) (pyFloat (pyStrip s)) =
        Except.ok (truncQ q != 0) := by
    intro s q h
    rw [h]
    rfl
  have c1 : (output_get (fun _ => "0.5")).1 = Except.ok false := by
    simp only [output_get]
    rw [pyFloat_of_scaled _ 5 (-((1 : Nat) : Int)) (by decide), ratOfScaled_negNat]
    norm_num [Except.map, truncQ]
  have c2 : (output_get (fun _ => "-0.5")).1 = Except.ok false := by
    simp only [output_get]
    rw [pyFloat_of_scaled _ (-5) (-((1 : Nat) : Int)) (by decide), ratOfScaled_negNat]
    norm_num [Except.map, truncQ]
  have c3 : (autorange_i_get (fun _ => "0.000000E+00")).1 = Except.ok false := by
    simp only [autorange_i_get]
    rw [pyFloat_of_scaled _ 0 (-((6 : Nat) : Int)) (by decide), ratOfScaled_negNat]
    norm_num [Except.map, truncQ]
  have c4 : (autorange_v_get (fun _ => "2")).1 = Except.ok true := by
    simp only [autorange_v_get]
    rw [pyFloat_of_scaled _ 2 ((0 : Nat) : Int) (by decide), ratOfScaled_ofNat]
    norm_num [Except.map, truncQ]
  exact ⟨fun t q h => hg _ q h, fun t q h => hg _ q h, fun t q h => hg _ q h,
    c1, c2, c3, c4⟩

/-- Witness for claim C10 at a concrete canned transport. -/
theorem C10_flag_conversion_witness :
    (output_get (fun _ => "2")).1 =
      Except.ok (truncQ (ratOfScaled 2 ((0 : Nat) : Int)) != 0) :=
  C10_flag_conversion.1 (fun _ => "2") _ (pyFloat_of_scaled _ _ _ (by decide))

end Keithley2600
